import Mathlib

/-!
Shallow embedding of the DoctorAssistantBot repository core:
the conversation store (`InMemoryChatStoreNew.py`), the booking resolver and
recommendation engine (`DoctorDetailService.py`), and the tool-dispatch /
dialogue-loop layer (`CompletionApiServiceWithDB.py`).

Python times are embedded as seconds since midnight (`Nat`); calendar dates
as a year/month/day structure compared lexicographically, matching
`datetime.date` ordering.  SQLAlchemy queries become list filters over an
explicit database state; the session/commit discipline of
`book_appointment` is made explicit through a `commitOk` flag: staged
changes are applied to the state only when the commit succeeds, mirroring
one transaction.
-/

namespace DoctorBot

/-- Calendar date, mirroring Python `datetime.date`; ordering is
lexicographic on (year, month, day) exactly as in CPython. -/
structure PDate where
  year : Nat
  month : Nat
  day : Nat
deriving DecidableEq, Repr

/-- Strict lexicographic `<` on dates, as `datetime.date.__lt__`. -/
def dateLt (a b : PDate) : Bool :=
  a.year < b.year ||
    (a.year = b.year && (a.month < b.month ||
      (a.month = b.month && a.day < b.day)))

theorem PDate.eq_iff (a b : PDate) :
    a = b ↔ a.year = b.year ∧ a.month = b.month ∧ a.day = b.day := by
  cases a; cases b; simp

/-- `str.split(sep)` on the underlying character list (structural, so
concrete inputs evaluate inside the kernel). -/
def splitOnChar (sep : Char) : List Char → List (List Char)
  | [] => [[]]
  | c :: rest =>
    match splitOnChar sep rest with
    | [] => [[]]
    | g :: gs => if c = sep then [] :: g :: gs else (c :: g) :: gs

/-- Decimal value of a digit run, as `int(...)` computes it. -/
def digitsToNat (cs : List Char) : Nat :=
  cs.foldl (fun n c => n * 10 + (c.toNat - 48)) 0

/-- A run of characters that `strptime` accepts for a numeric field:
nonempty, all digits, at most `maxLen` long. -/
def parseDigits (cs : List Char) (maxLen : Nat) : Option Nat :=
  if 1 ≤ cs.length && cs.length ≤ maxLen && cs.all Char.isDigit then
    some (digitsToNat cs)
  else
    none

def isLeapYear (y : Nat) : Bool :=
  (y % 4 = 0 && y % 100 ≠ 0) || y % 400 = 0

def daysInMonth (y m : Nat) : Nat :=
  if m = 2 then (if isLeapYear y then 29 else 28)
  else if m = 4 || m = 6 || m = 9 || m = 11 then 30
  else 31

/-- The `%Y` directive of `strptime`: exactly four digits (CPython's
`TimeRE` pattern for `Y` is four `\d`), and the `datetime` constructor
additionally requires `year >= MINYEAR = 1`. -/
def parseYear (cs : List Char) : Option Nat :=
  if cs.length = 4 && cs.all Char.isDigit then
    if 1 ≤ digitsToNat cs then some (digitsToNat cs) else none
  else none

/-- Embedding of `datetime.strptime(date, "%Y-%m-%d").date()`: a
four-digit year of at least 1, then one-or-two-digit month and day
fields that form a calendar-valid date, dash-separated.  `None` models
the `ValueError` the service catches. -/
def dateFromISO (s : String) : Option PDate :=
  match splitOnChar (Char.ofNat 45) s.data with
  | [y, m, d] =>
    match parseYear y, parseDigits m 2, parseDigits d 2 with
    | some yv, some mv, some dv =>
      if 1 ≤ mv && mv ≤ 12 && 1 ≤ dv && dv ≤ daysInMonth yv mv then
        some { year := yv, month := mv, day := dv }
      else none
    | _, _, _ => none
  | _ => none

/-- A two-digit numeric field of `time.fromisoformat`. -/
def parseTwoDigits (cs : List Char) : Option Nat :=
  if cs.length = 2 && cs.all Char.isDigit then some (digitsToNat cs) else none

/-- Embedding of `datetime.time.fromisoformat` (without fractional
seconds): `HH`, `HH:MM` or `HH:MM:SS`, returned as seconds since
midnight.  `None` models the raised `ValueError`. -/
def timeFromISO (cs : List Char) : Option Nat :=
  match splitOnChar (Char.ofNat 58) cs with
  | [h] =>
    match parseTwoDigits h with
    | some hv => if hv < 24 then some (hv * 3600) else none
    | none => none
  | [h, m] =>
    match parseTwoDigits h, parseTwoDigits m with
    | some hv, some mv =>
      if hv < 24 && mv < 60 then some (hv * 3600 + mv * 60) else none
    | _, _ => none
  | [h, m, sec] =>
    match parseTwoDigits h, parseTwoDigits m, parseTwoDigits sec with
    | some hv, some mv, some sv =>
      if hv < 24 && mv < 60 && sv < 60 then
        some (hv * 3600 + mv * 60 + sv)
      else none
    | _, _, _ => none
  | _ => none

/-- `start_str, end_str = time_range.split("-")` followed by
`time.fromisoformat` on both halves (`book_appointment`, lines 255-257).
`None` models the `ValueError` raised on any malformed input: a split
that does not yield exactly two parts, or a part that is not a valid
ISO time literal. -/
def parseTimeRange (s : String) : Option (Nat × Nat) :=
  match splitOnChar (Char.ofNat 45) s.data with
  | [a, b] =>
    match timeFromISO a, timeFromISO b with
    | some st, some et => some (st, et)
    | _, _ => none
  | _ => none

/-- `abs(datetime.combine(today, a) - datetime.combine(today, b))`
as a number of seconds. -/
def timeDistance (a b : Nat) : Nat :=
  if a ≤ b then b - a else a - b

/-! ## Conversation store (`InMemoryChatStoreNew.py`) -/

/-- The fixed system instruction (`InMemoryChatStoreNew.SYSTEM_PROMPT`).
Braces of the embedded JSON example are written with escapes. -/
def SYSTEM_PROMPT : String :=
  "\nYou are an AI assistant for Super Clinic.\nYour job is to help users book, view, or filter doctor appointments by interacting with the backend via available tools (functions).\n\nFollow these rules:\n1. Always use the available functions to retrieve doctor or appointment data - do NOT make assumptions.\n2. When booking, ensure to check doctor availability first.\n3. when users ask for availability of doctor then always ask for the date and time need to book before retrieving availability.\n4. Always confirm success or failure clearly.\n5. If no slots are available, use the function to recommend two alternative slots for the same specialty.\n6. Respond in a friendly, conversational tone.\n7. At the final step of slot booking, validate that the patient's name, email, and phone number are all provided. \nIf any of these required fields are missing, the booking must be halted. Instead of proceeding, return a structured error\n response in the following format:\n\n\x7b\n  \"status\": \"error\",\n  \"message\": \"Missing required patient details.\",\n  \"required_fields\": [\"name\", \"email\", \"phone\"]\n\x7d\n\nSupported user actions:\n1. View list of all doctors.\n2. Filter doctors by specialty.\n3. Show doctor availability.\n4. Book appointments based on availability.\n5. Recommend alternate slots if unavailable.\n6. Also consider user can give the disease detail your responsibility to find the actual doctors list based on which \nspecialty it will come if no doctor is available, you can return Sorry, we do not have any doctors with that specialty \nat our Super clinic.\n\n\n\n\nUnsupported queries\n- If the user asks anything unrelated to doctor listings, availability, or booking (general clinic operations, billing, prescriptions, medical advice beyond scheduling), respond:\n  Sorry, I can only help with doctor appointments. For other queries, please contact our help desk at 12356789.\nWhen booking is successful, respond with:\n\"Your appointment is confirmed with [Doctor Name] on [Date] at [Time]. Your booking ID is [slotId].\"\n"

/-- One entry of a user's history: a dict with `role` and `content`. -/
structure ChatMessage where
  role : String
  content : String
deriving DecidableEq, Repr

def systemMessage : ChatMessage :=
  { role := "system", content := SYSTEM_PROMPT }

/-- `InMemoryChatStoreNew._user_history`, the class-level
`Dict[str, List[Dict]]`, embedded as an association list. -/
abbrev ChatStore := List (String × List ChatMessage)

/-- Dictionary read: first entry with the given key. -/
def storeGet (st : ChatStore) (u : String) : Option (List ChatMessage) :=
  (st.find? (fun e => e.1 = u)).map (fun e => e.2)

/-- Dictionary write `_user_history[u] = h`. -/
def storeSet (st : ChatStore) (u : String) (h : List ChatMessage) : ChatStore :=
  match storeGet st u with
  | some _ => st.map (fun e => if e.1 = u then (u, h) else e)
  | none => st ++ [(u, h)]

/-- `ensure_user` (lines 124-128): seed a fresh user with the system
prompt as message 0. -/
def ensure_user (st : ChatStore) (u : String) : ChatStore :=
  match storeGet st u with
  | some _ => st
  | none => storeSet st u [systemMessage]

/-- `add_message` (lines 130-141): `ensure_user` then append. -/
def add_message (st : ChatStore) (u : String) (m : ChatMessage) : ChatStore :=
  let st' := ensure_user st u
  storeSet st' u (((storeGet st' u).getD []) ++ [m])

/-- `set_messages` (lines 152-170): full replace; an empty list resets
to the system-only state; a nonempty list whose first role is not
`system` gets the system prompt prepended. -/
def set_messages (st : ChatStore) (u : String) (msgs : List ChatMessage) : ChatStore :=
  if msgs.isEmpty then
    storeSet st u [systemMessage]
  else if (msgs.head?.map (fun m => m.role)) ≠ some "system" then
    storeSet st u (systemMessage :: msgs)
  else
    storeSet st u msgs

/-- `get_messages` (lines 143-150). -/
def get_messages (st : ChatStore) (u : String) : List ChatMessage :=
  (storeGet st u).getD []

/-- `clear_user_messages` (lines 172-182). -/
def clear_user_messages (st : ChatStore) (u : String) : ChatStore × Bool :=
  match storeGet st u with
  | some _ => (st.filter (fun e => e.1 ≠ u), true)
  | none => (st, false)

/-- One public mutating operation of the conversation store. -/
inductive StoreOp where
  | ensure (u : String)
  | append (u : String) (m : ChatMessage)
  | replaceAll (u : String) (msgs : List ChatMessage)

def applyOp (st : ChatStore) : StoreOp → ChatStore
  | .ensure u => ensure_user st u
  | .append u m => add_message st u m
  | .replaceAll u msgs => set_messages st u msgs

def applyOps (ops : List StoreOp) (st : ChatStore) : ChatStore :=
  ops.foldl applyOp st

/-! ## Entities (`EntityClasses.py`) and the database state -/

structure Speciality where
  speciality_id : Nat
  name : String
  description : String
deriving DecidableEq, Repr

structure Doctor where
  doctor_id : Nat
  name : String
  email : String
  address : String
  speciality_id : Nat
deriving DecidableEq, Repr

structure DoctorAvailability where
  availability_id : Nat
  doctor_id : Nat
  available_date : PDate
deriving DecidableEq, Repr

structure TimeSlots where
  slot_id : Nat
  availability_id : Nat
  start_time : Nat
  end_time : Nat
  is_booked : Bool
deriving DecidableEq, Repr

structure Patient where
  booking_id : Nat
  user_id : String
  slot_id : Nat
  name : String
  email : String
  phone : String
deriving DecidableEq, Repr

/-- The persisted relational state the service queries and mutates. -/
structure DB where
  specialities : List Speciality
  doctors : List Doctor
  availabilities : List DoctorAvailability
  slots : List TimeSlots
  patients : List Patient
deriving DecidableEq, Repr

/-- `select(Doctor).where(Doctor.name == doctor_name)` with
`scalar_one_or_none()`: first doctor with that display name. -/
def findDoctor (db : DB) (doctor_name : String) : Option Doctor :=
  db.doctors.find? (fun d => d.name = doctor_name)

/-- `select(DoctorAvailability).where(doctor_id == .. and
available_date == ..)` with `scalar_one_or_none()`. -/
def availFor (db : DB) (did : Nat) (d : PDate) : Option DoctorAvailability :=
  db.availabilities.find? (fun a => a.doctor_id = did && a.available_date = d)

/-- Availability row looked up by primary key (relationship
`TimeSlots.availability`). -/
def availById (db : DB) (aid : Nat) : Option DoctorAvailability :=
  db.availabilities.find? (fun a => a.availability_id = aid)

/-- Doctor row looked up by primary key (relationship
`DoctorAvailability.doctor`). -/
def doctorById (db : DB) (did : Nat) : Option Doctor :=
  db.doctors.find? (fun d => d.doctor_id = did)

/-- Name of a speciality row by primary key (relationship
`Doctor.speciality`), empty when dangling. -/
def specialityName (db : DB) (sid : Nat) : String :=
  ((db.specialities.find? (fun sp => sp.speciality_id = sid)).map
    (fun sp => sp.name)).getD ""

/-- `select(TimeSlots).where(availability_id == .. and is_booked ==
False)`: the unbooked slots under one availability, in table order. -/
def unbookedSlotsOf (db : DB) (aid : Nat) : List TimeSlots :=
  db.slots.filter (fun s => s.availability_id = aid && !s.is_booked)

/-- `s.availability.available_date` via the relationship. -/
def slotDate (db : DB) (s : TimeSlots) : PDate :=
  ((availById db s.availability_id).map
    (fun a => a.available_date)).getD { year := 0, month := 0, day := 0 }

/-- `s.availability.doctor` via the relationships. -/
def slotDoctor (db : DB) (s : TimeSlots) : Option Doctor :=
  (availById db s.availability_id).bind (fun a => doctorById db a.doctor_id)

def slotDoctorName (db : DB) (s : TimeSlots) : String :=
  ((slotDoctor db s).map (fun d => d.name)).getD ""

def slotSpecialityName (db : DB) (s : TimeSlots) : String :=
  ((slotDoctor db s).map (fun d => specialityName db d.speciality_id)).getD ""

/-! ## Recommendation engine (`recommend_alternatives`, lines 382-541) -/

/-- Projection of a tier-2 / tier-3 slot to the returned dict: doctor
and speciality names through `s.availability.doctor`, the date through
`s.availability.available_date` (the source serialises it with `str`),
and the slot's own id and times. -/
structure RecommendationCandidate where
  doctor : String
  speciality : String
  date : PDate
  slotId : Nat
  start : Nat
  endTime : Nat
deriving DecidableEq, Repr

def candOf (db : DB) (s : TimeSlots) : RecommendationCandidate :=
  { doctor := slotDoctorName db s
  , speciality := slotSpecialityName db s
  , date := slotDate db s
  , slotId := s.slot_id
  , start := s.start_time
  , endTime := s.end_time }

/-- Tier-1 projection: the source reports `doctor.name`,
`doctor.speciality.name` and the requested date. -/
def cand1 (db : DB) (doctor : Doctor) (pd : PDate) (s : TimeSlots) :
    RecommendationCandidate :=
  { doctor := doctor.name
  , speciality := specialityName db doctor.speciality_id
  , date := pd
  , slotId := s.slot_id
  , start := s.start_time
  , endTime := s.end_time }

/-- `key=lambda s: abs(... s.start_time ... - ... requested_start ...)`
as a sort relation for Python's `sorted`. -/
def distLe (req : Nat) (s t : TimeSlots) : Bool :=
  timeDistance s.start_time req ≤ timeDistance t.start_time req

/-- `.order_by(asc(TimeSlots.start_time))`. -/
def startLe (s t : TimeSlots) : Bool :=
  s.start_time ≤ t.start_time

/-- `.order_by(asc(DoctorAvailability.available_date))`. -/
def availDateLe (a b : DoctorAvailability) : Bool :=
  dateLt a.available_date b.available_date || a.available_date = b.available_date

/-- `key=lambda s: (s.availability.available_date, s.start_time)`:
lexicographic tuple comparison for Python's `sorted`. -/
def slotLexLe (db : DB) (s t : TimeSlots) : Bool :=
  dateLt (slotDate db s) (slotDate db t) ||
    (slotDate db s = slotDate db t && s.start_time ≤ t.start_time)

/-- Tier-1 pool (lines 407-429): the requested doctor's availability on
the requested date, its unbooked slots ordered by start time. -/
def tier1Slots (db : DB) (doctor : Doctor) (pd : PDate) : List TimeSlots :=
  match availFor db doctor.doctor_id pd with
  | none => []
  | some a => (unbookedSlotsOf db a.availability_id).mergeSort startLe

/-- `[d.doctor_id for d in doctors with the requested speciality]`
(lines 453-454). -/
def specialtyDoctorIds (db : DB) (sid : Nat) : List Nat :=
  (db.doctors.filter (fun d => d.speciality_id = sid)).map (fun d => d.doctor_id)

/-- Tier-2 pool (lines 456-480): unbooked slots under every
same-speciality availability on the requested date, guarded by
`if specialty_doctor_ids:`; the whole block is skipped when the date
did not parse (`same_date_avails = []`). -/
def tier2Slots (db : DB) (ids : List Nat) (parsed_date : Option PDate) :
    List TimeSlots :=
  if ids.isEmpty then []
  else
    let same_date_avails : List DoctorAvailability :=
      match parsed_date with
      | some pd =>
        db.availabilities.filter
          (fun a => a.available_date = pd && ids.contains a.doctor_id)
      | none => []
    same_date_avails.flatMap (fun a => unbookedSlotsOf db a.availability_id)

/-- Tier-3 pool (lines 505-524): every same-speciality availability in
date order, skipping the requested date when it parsed, collecting the
unbooked slots. -/
def tier3Slots (db : DB) (ids : List Nat) (parsed_date : Option PDate) :
    List TimeSlots :=
  let future_avails :=
    (db.availabilities.filter (fun a => ids.contains a.doctor_id)).mergeSort
      availDateLe
  future_avails.flatMap (fun a =>
    match parsed_date with
    | some pd =>
      if a.available_date = pd then []
      else unbookedSlotsOf db a.availability_id
    | none => unbookedSlotsOf db a.availability_id)

/-- Tiers 2 and 3 (lines 451-541): executed whenever tier 1 produced no
candidate; tier 2 short-circuits tier 3 once it has at least one slot. -/
def recommendSpecialty (db : DB) (ids : List Nat) (parsed_date : Option PDate)
    (requested_start : Nat) : List RecommendationCandidate :=
  let tier2 := tier2Slots db ids parsed_date
  if tier2.isEmpty then
    (((tier3Slots db ids parsed_date).mergeSort (slotLexLe db)).take 3).map
      (candOf db)
  else
    ((tier2.mergeSort (distLe requested_start)).take 3).map (candOf db)

/-- `recommend_alternatives` (lines 382-541).  Unknown doctor: empty
list.  A date that fails `strptime` leaves `parsed_date = None`, which
skips tier 1 (`same_doc_avail = None`) and empties tier 2.  Tier 1
returns as soon as its slot list is nonempty. -/
def recommend_alternatives (db : DB) (doctor_name : String) (date : String)
    (start_time end_time : Nat) : List RecommendationCandidate :=
  match findDoctor db doctor_name with
  | none => []
  | some doctor =>
    let ids := specialtyDoctorIds db doctor.speciality_id
    match dateFromISO date with
    | some pd =>
      let tier1 := tier1Slots db doctor pd
      if tier1.isEmpty then
        recommendSpecialty db ids (some pd) start_time
      else
        ((tier1.mergeSort (distLe start_time)).take 3).map (cand1 db doctor pd)
    | none => recommendSpecialty db ids none start_time

/-! ## Booking resolver (`get_slot_id`, `book_appointment`) -/

/-- `get_slot_id` (lines 329-377): doctor by name, date parse,
availability by doctor and date, then the slot matching both times with
`is_booked == False`; any miss yields `None`. -/
def get_slot_id (db : DB) (doctor_name : String) (date : String)
    (start_time end_time : Nat) : Option TimeSlots :=
  match findDoctor db doctor_name with
  | none => none
  | some doctor =>
    match dateFromISO date with
    | none => none
    | some pd =>
      match availFor db doctor.doctor_id pd with
      | none => none
      | some a =>
        db.slots.find? (fun s =>
          s.availability_id = a.availability_id &&
          s.start_time = start_time &&
          s.end_time = end_time &&
          !s.is_booked)

/-- `slot.is_booked = True` staged on the session: the row with the
slot's primary key gets its flag set. -/
def setSlotBooked (slots : List TimeSlots) (sid : Nat) : List TimeSlots :=
  slots.map (fun s =>
    if s.slot_id = sid then { s with is_booked := true } else s)

/-- Autoincrement primary key for the inserted `Patient` row. -/
def nextBookingId (db : DB) : Nat :=
  db.patients.foldl (fun m p => max m p.booking_id) 0 + 1

def mkPatient (db : DB) (user_id patient_name email phone : String)
    (sid : Nat) : Patient :=
  { booking_id := nextBookingId db
  , user_id := user_id
  , slot_id := sid
  , name := patient_name
  , email := email
  , phone := phone }

/-- The snapshot the success dict carries (doctor, appointment, patient). -/
structure BookingSuccess where
  doctorId : Nat
  doctorName : String
  speciality : String
  date : String
  slotId : Nat
  startT : Nat
  endT : Nat
  patientName : String
  email : String
  phone : String
deriving DecidableEq, Repr

/-- Outcome of one `book_appointment` call.  `raised` stands for an
exception leaving the function (malformed time range, or a failed
commit); `unavailable` is the returned dict with `status: "error"`,
message `"Slot not available or already booked"` and the alternatives
list; `success` is the `status: "success"` confirmation. -/
inductive BookOutcome where
  | raised
  | unavailable (alternatives : List RecommendationCandidate)
  | success (info : BookingSuccess)
deriving DecidableEq, Repr

/-- The `"status"` field of the dict `book_appointment` returns, when it
returns one (an exception produces no payload). -/
def outcomeStatus : BookOutcome → Option String
  | .raised => none
  | .unavailable _ => some "error"
  | .success _ => some "success"

/-- `book_appointment` (lines 244-324).  The time range is parsed first
(a `ValueError` escapes the function before any query).  On a slot miss
the recommendation engine is invoked and the alternatives dict is
returned.  On a hit, the flag flip and the patient insert are staged on
the session and persisted together by the single `commit()`: `commitOk`
says whether that commit succeeds; when it does not, no staged change
reaches the database. -/
def book_appointment (db : DB) (commitOk : Bool)
    (user_id doctor_name date time_range patient_name email phone : String) :
    DB × BookOutcome :=
  match parseTimeRange time_range with
  | none => (db, .raised)
  | some (start_time, end_time) =>
    match get_slot_id db doctor_name date start_time end_time with
    | none =>
      (db, .unavailable
        (recommend_alternatives db doctor_name date start_time end_time))
    | some slot =>
      if commitOk then
        ({ db with
            slots := setSlotBooked db.slots slot.slot_id
          , patients := db.patients ++
              [mkPatient db user_id patient_name email phone slot.slot_id] },
         .success
           { doctorId := ((slotDoctor db slot).map (fun d => d.doctor_id)).getD 0
           , doctorName := slotDoctorName db slot
           , speciality := slotSpecialityName db slot
           , date := date
           , slotId := slot.slot_id
           , startT := slot.start_time
           , endT := slot.end_time
           , patientName := patient_name
           , email := email
           , phone := phone })
      else (db, .raised)

/-! ## Tool dispatch (`CompletionApiServiceWithDB.py`) -/

/-- The payload the dispatch layer hands back to the dialogue loop for a
`book_appointment` tool call: `_run_async_db_call` (lines 36-47)
converts any exception into the uniform
`status:"error"` dict with a user-safe message; otherwise the service's
own dict passes through. -/
inductive BookToolPayload where
  | genericError (message : String)
  | unavailable (message : String) (alternatives : List RecommendationCandidate)
  | success (info : BookingSuccess)
deriving DecidableEq, Repr

def payloadStatus : BookToolPayload → String
  | .genericError _ => "error"
  | .unavailable _ _ => "error"
  | .success _ => "success"

/-- `async_run(_f_book_appointment, ...)` through `_run_async_db_call`:
runs `book_appointment` in a scoped session and catches exceptions into
the generic error payload (an exception means nothing was committed, so
the persisted state is unchanged). -/
def run_book_tool (db : DB) (commitOk : Bool)
    (user_id doctor_name date time_range patient_name email phone : String) :
    DB × BookToolPayload :=
  match book_appointment db commitOk user_id doctor_name date time_range
      patient_name email phone with
  | (db', .raised) =>
    (db', .genericError
      "Something went wrong while processing your request. Please try again later.")
  | (db', .unavailable alts) =>
    (db', .unavailable "Slot not available or already booked" alts)
  | (db', .success info) => (db', .success info)

/-- `_get_arg(d, *keys, default=None)` (lines 142-146): the value under
the first present key, else the default. -/
def get_arg {α : Type} (a : List (String × α)) :
    List String → Option α → Option α
  | [], dflt => dflt
  | k :: ks, dflt =>
    match a.find? (fun kv => kv.1 = k) with
    | some kv => some kv.2
    | none => get_arg a ks dflt

/-- `d.get(k)`. -/
def lookupArg {α : Type} (a : List (String × α)) (k : String) : Option α :=
  (a.find? (fun kv => kv.1 = k)).map (fun kv => kv.2)

/-- The `filter_doctors` entry of `FUNCTION_MAP` (line 159) extracts its
speciality argument as `_get_arg(a, "specialty", "speciality")`; the
dispatched backend call is a function of this value alone. -/
def filterSpecialityArg (a : List (String × String)) : Option String :=
  get_arg a ["specialty", "speciality"] none

/-- The argument tuple the `book_appointment` entry of `FUNCTION_MAP`
(lines 166-175) passes to `async_run`. -/
structure BookCallArgs where
  user_id : Option String
  doctor_name : Option String
  date : Option String
  time_range : Option String
  patient_name : Option String
  email : Option String
  phone : Option String
deriving DecidableEq, Repr

def bookCallArgs (a : List (String × String)) : BookCallArgs :=
  { user_id := get_arg a ["user_id", "user_id"] (some "anonymous")
  , doctor_name := lookupArg a "doctor_name"
  , date := lookupArg a "date"
  , time_range := get_arg a ["time", "time_range"] (lookupArg a "time_range")
  , patient_name := lookupArg a "patient_name"
  , email := lookupArg a "email"
  , phone := lookupArg a "phone" }

/-! ## Dialogue loop and rate-limit handling
(`_maybe_wait_and_retry`, `_call_openai`) -/

/-- What `_maybe_wait_and_retry` (lines 189-204) does with a response:
return `False` (not a 429), raise `HTTPError` (attempts exhausted), or
sleep for the computed delay - the `Retry-After` header when it parses
as an integer, otherwise `base_delay * 2 ** attempt` - and return
`True`. -/
inductive RetryDecision where
  | noRetry
  | raisedHTTPError
  | retryAfterDelay (delay : Nat)
deriving DecidableEq, Repr

/-- `int(retry_after)` when it parses as a plain decimal, else failure
(the `except ValueError: pass` branch). -/
def parseIntStr (s : String) : Option Nat :=
  if s.data ≠ [] && s.data.all Char.isDigit then some (digitsToNat s.data)
  else none

def maybe_wait_and_retry (status_code : Nat) (retryAfter : Option String)
    (attempt max_attempts base_delay : Nat) : RetryDecision :=
  if status_code ≠ 429 then .noRetry
  else if attempt ≥ max_attempts then .raisedHTTPError
  else
    let delay := base_delay * 2 ^ attempt
    let delay :=
      match retryAfter with
      | some ra =>
        match parseIntStr ra with
        | some n => n
        | none => delay
      | none => delay
    .retryAfterDelay delay

/-- One scripted reply of the model collaborator, as `_call_openai`
inspects it: the HTTP status (`raise_for_status` throws on anything not
2xx, in particular on 429) and, for a 200, the assistant message shape -
tool calls (modern or legacy, which dispatch and loop) or plain text
(which terminates the loop). -/
inductive ModelReply where
  | rateLimited (retryAfter : Option String)
  | httpFailure (code : Nat)
  | toolCalls (count : Nat)
  | text (content : String)
deriving DecidableEq, Repr

/-- What `_call_openai` (lines 213-311) hands back to `process_chat`:
the final assistant text, or the dict from its `except` branch.
`outOfScript` marks a run that consumed every scripted reply without
terminating (the real loop would block on the next HTTP request). -/
inductive CallResult where
  | finalText (content : String)
  | errorPayload (message : String)
  | outOfScript
deriving DecidableEq, Repr

/-- The `while True` loop of `_call_openai`, driven by the scripted
replies.  A non-2xx response makes `raise_for_status` throw; the
`except Exception` branch returns the uniform error dict at once -
`_maybe_wait_and_retry` is never consulted, so nothing is waited or
retried and the rest of the script is never read.  Tool-call messages
dispatch and `continue`; a plain text message is returned. -/
def call_openai : List ModelReply → CallResult
  | [] => .outOfScript
  | r :: rest =>
    match r with
    | .rateLimited _ =>
      .errorPayload
        "Unable to contact the assistant at the moment. Please try again later."
    | .httpFailure _ =>
      .errorPayload
        "Unable to contact the assistant at the moment. Please try again later."
    | .toolCalls _ => call_openai rest
    | .text content => .finalText content

/-! ## Generic lemmas about the `sorted(...)[:3]` pattern -/

theorem sortTakeMap_length {α β : Type} (le : α → α → Bool) (proj : α → β)
    (l : List α) (n : Nat) :
    (((l.mergeSort le).take n).map proj).length = min n l.length := by
  simp [List.length_take, List.length_mergeSort]

theorem sortTakeMap_mem {α β : Type} {le : α → α → Bool} {proj : α → β}
    {l : List α} {n : Nat} {c : β}
    (hc : c ∈ ((l.mergeSort le).take n).map proj) :
    ∃ s ∈ l, c = proj s := by
  rcases List.mem_map.mp hc with ⟨s, hs, rfl⟩
  exact ⟨s, List.mem_mergeSort.mp ((List.take_sublist _ _).subset hs), rfl⟩

theorem sortTakeMap_pairwise {α β : Type} {le : α → α → Bool}
    {R : β → β → Prop} {proj : α → β}
    (htrans : ∀ a b c, le a b = true → le b c = true → le a c = true)
    (htotal : ∀ a b, (le a b || le b a) = true)
    (himp : ∀ a b, le a b = true → R (proj a) (proj b))
    (l : List α) (n : Nat) :
    (((l.mergeSort le).take n).map proj).Pairwise R := by
  have hs := List.sorted_mergeSort htrans htotal l
  have ht : ((l.mergeSort le).take n).Pairwise (fun a b => le a b = true) :=
    List.Pairwise.sublist (List.take_sublist _ _) hs
  exact List.pairwise_map.mpr (ht.imp (fun h => himp _ _ h))

/-! ## Comparator facts -/

theorem distLe_trans (req : Nat) (a b c : TimeSlots) :
    distLe req a b = true → distLe req b c = true → distLe req a c = true := by
  simp only [distLe, decide_eq_true_eq]
  omega

theorem distLe_total (req : Nat) (a b : TimeSlots) :
    (distLe req a b || distLe req b a) = true := by
  simp only [distLe, Bool.or_eq_true, decide_eq_true_eq]
  omega

theorem pdate_lex_trans (x y z : PDate) (a b c : Nat) :
    (dateLt x y || (x = y && a ≤ b)) = true →
    (dateLt y z || (y = z && b ≤ c)) = true →
    (dateLt x z || (x = z && a ≤ c)) = true := by
  cases x; cases y; cases z
  simp only [dateLt, Bool.or_eq_true, Bool.and_eq_true, decide_eq_true_eq,
    PDate.mk.injEq]
  omega

theorem pdate_lex_total (x y : PDate) (a b : Nat) :
    ((dateLt x y || (x = y && a ≤ b)) ||
     (dateLt y x || (y = x && b ≤ a))) = true := by
  cases x; cases y
  simp only [dateLt, Bool.or_eq_true, Bool.and_eq_true, decide_eq_true_eq,
    PDate.mk.injEq]
  omega

theorem slotLexLe_trans (db : DB) (a b c : TimeSlots) :
    slotLexLe db a b = true → slotLexLe db b c = true →
    slotLexLe db a c = true :=
  pdate_lex_trans (slotDate db a) (slotDate db b) (slotDate db c)
    a.start_time b.start_time c.start_time

theorem slotLexLe_total (db : DB) (a b : TimeSlots) :
    (slotLexLe db a b || slotLexLe db b a) = true :=
  pdate_lex_total (slotDate db a) (slotDate db b) a.start_time b.start_time

/-! ## Tier pool membership facts -/

theorem mem_unbookedSlotsOf {db : DB} {aid : Nat} {s : TimeSlots}
    (hs : s ∈ unbookedSlotsOf db aid) :
    s ∈ db.slots ∧ s.availability_id = aid ∧ s.is_booked = false := by
  have := List.mem_filter.mp hs
  simp only [Bool.and_eq_true, decide_eq_true_eq, Bool.not_eq_true'] at this
  exact ⟨this.1, this.2.1, this.2.2⟩

theorem mem_tier1Slots {db : DB} {doctor : Doctor} {pd : PDate}
    {s : TimeSlots} (hs : s ∈ tier1Slots db doctor pd) :
    ∃ a, availFor db doctor.doctor_id pd = some a ∧
      s ∈ db.slots ∧ s.availability_id = a.availability_id ∧
      s.is_booked = false := by
  unfold tier1Slots at hs
  rcases ha : availFor db doctor.doctor_id pd with _ | a
  · rw [ha] at hs; simp at hs
  · rw [ha] at hs
    have := mem_unbookedSlotsOf (List.mem_mergeSort.mp hs)
    exact ⟨a, rfl, this⟩

theorem mem_tier2Slots {db : DB} {ids : List Nat} {pd : PDate}
    {s : TimeSlots} (hs : s ∈ tier2Slots db ids (some pd)) :
    ∃ a ∈ db.availabilities, a.available_date = pd ∧
      ids.contains a.doctor_id = true ∧
      s ∈ db.slots ∧ s.availability_id = a.availability_id ∧
      s.is_booked = false := by
  unfold tier2Slots at hs
  by_cases hids : ids.isEmpty
  · simp [hids] at hs
  · simp only [hids, if_false] at hs
    rcases List.mem_flatMap.mp hs with ⟨a, ha, hsa⟩
    have hfa := List.mem_filter.mp ha
    simp only [Bool.and_eq_true, decide_eq_true_eq] at hfa
    have h2 := mem_unbookedSlotsOf hsa
    exact ⟨a, hfa.1, hfa.2.1, hfa.2.2, h2.1, h2.2.1, h2.2.2⟩

theorem mem_tier3Slots {db : DB} {ids : List Nat}
    {parsed_date : Option PDate} {s : TimeSlots}
    (hs : s ∈ tier3Slots db ids parsed_date) :
    ∃ a ∈ db.availabilities, ids.contains a.doctor_id = true ∧
      (∀ pd, parsed_date = some pd → a.available_date ≠ pd) ∧
      s ∈ db.slots ∧ s.availability_id = a.availability_id ∧
      s.is_booked = false := by
  unfold tier3Slots at hs
  rcases List.mem_flatMap.mp hs with ⟨a, ha, hsa⟩
  have ha' := List.mem_filter.mp (List.mem_mergeSort.mp ha)
  simp only [decide_eq_true_eq] at ha'
  refine ⟨a, ha'.1, ha'.2, ?_, ?_⟩
  · intro pd hpd hdate
    rw [hpd] at hsa
    simp only [hdate, if_pos rfl] at hsa
    exact absurd hsa (List.not_mem_nil s)
  · rcases parsed_date with _ | pd
    · exact mem_unbookedSlotsOf hsa
    · by_cases hdate : a.available_date = pd
      · simp [hdate] at hsa
      · simp only [if_neg hdate] at hsa
        exact mem_unbookedSlotsOf hsa

/-- Converse direction for the parse-failure case: with no requested
date every unbooked slot under a same-speciality availability is in the
tier-3 pool - no date is excluded. -/
theorem tier3Slots_none_complete {db : DB} {ids : List Nat} {s : TimeSlots}
    {a : DoctorAvailability} (ha : a ∈ db.availabilities)
    (hid : ids.contains a.doctor_id = true)
    (hsa : s.availability_id = a.availability_id)
    (hmem : s ∈ db.slots) (hunbooked : s.is_booked = false) :
    s ∈ tier3Slots db ids none := by
  unfold tier3Slots
  refine List.mem_flatMap.mpr ⟨a, ?_, ?_⟩
  · exact List.mem_mergeSort.mpr
      (List.mem_filter.mpr ⟨ha, by simpa using hid⟩)
  · exact List.mem_filter.mpr ⟨hmem, by simp [hsa, hunbooked]⟩

/-! ## Concrete fixtures used by witnesses and counterexamples -/

def fixtureDoctorA : Doctor :=
  { doctor_id := 1, name := "Dr A", email := "a@clinic", address := "1 Main St"
  , speciality_id := 1 }

/-- One speciality, two doctors sharing it; Dr A has five open slots on
2024-03-01 at distances [10, 5, 60, 120, 1] minutes from 10:00 (the
spec's ranking vector), Dr B one open slot the same date, and Dr A one
open slot on 2024-03-05. -/
def fixtureDB : DB :=
  { specialities := [⟨1, "Cardio", "heart"⟩]
  , doctors := [fixtureDoctorA, ⟨2, "Dr B", "b@clinic", "2 Main St", 1⟩]
  , availabilities :=
      [⟨1, 1, ⟨2024, 3, 1⟩⟩, ⟨2, 2, ⟨2024, 3, 1⟩⟩, ⟨3, 1, ⟨2024, 3, 5⟩⟩]
  , slots :=
      [⟨1, 1, 36600, 38400, false⟩
      , ⟨2, 1, 35700, 36600, false⟩
      , ⟨3, 1, 39600, 41400, false⟩
      , ⟨4, 1, 28800, 30600, false⟩
      , ⟨5, 1, 36060, 37800, false⟩
      , ⟨6, 2, 50400, 52200, false⟩
      , ⟨7, 3, 32400, 34200, false⟩]
  , patients := [] }

/-- A minimal state with a single open slot for Dr A on 2024-03-01,
10:00-11:00. -/
def oneSlotDB : DB :=
  { specialities := [⟨1, "Cardio", "heart"⟩]
  , doctors := [fixtureDoctorA]
  , availabilities := [⟨1, 1, ⟨2024, 3, 1⟩⟩]
  , slots := [⟨1, 1, 36000, 39600, false⟩]
  , patients := [] }

def emptyDB : DB :=
  { specialities := [], doctors := [], availabilities := []
  , slots := [], patients := [] }

/-! ## Claim theorems -/

/-- C1: `recommend(doctorName, date, start, end)` is a three-tier
fallback in which each tier short-circuits the following ones as soon
as it yields at least one candidate: tier 1 returns the unbooked slots
of the requested doctor on the requested date ranked by absolute
time-distance of slot start from the requested start, tier 2 returns
unbooked same-date slots across all doctors of the same specialty with
the same ranking, tier 3 returns unbooked slots of the specialty on
dates other than the requested one ranked by calendar date ascending
then start time ascending; every returned sequence has length at
most 3. -/
theorem recommend_three_tier_fallback
    (db : DB) (doctor_name date : String) (start_time end_time : Nat)
    (pd : PDate) (doctor : Doctor)
    (hdate : dateFromISO date = some pd)
    (hdoc : findDoctor db doctor_name = some doctor) :
    ∀ r, r = recommend_alternatives db doctor_name date start_time end_time →
    r.length ≤ 3 ∧
    (tier1Slots db doctor pd ≠ [] →
      r.length = min 3 (tier1Slots db doctor pd).length ∧
      (∀ c ∈ r, ∃ s ∈ tier1Slots db doctor pd,
        c.slotId = s.slot_id ∧ c.start = s.start_time ∧
        c.endTime = s.end_time ∧ s.is_booked = false) ∧
      r.Pairwise (fun a b =>
        timeDistance a.start start_time ≤ timeDistance b.start start_time)) ∧
    (tier1Slots db doctor pd = [] →
     tier2Slots db (specialtyDoctorIds db doctor.speciality_id) (some pd) ≠ [] →
      r.length = min 3
        (tier2Slots db (specialtyDoctorIds db doctor.speciality_id)
          (some pd)).length ∧
      (∀ c ∈ r, ∃ s ∈ tier2Slots db
          (specialtyDoctorIds db doctor.speciality_id) (some pd),
        c.slotId = s.slot_id ∧ c.start = s.start_time ∧
        c.endTime = s.end_time ∧ s.is_booked = false) ∧
      r.Pairwise (fun a b =>
        timeDistance a.start start_time ≤ timeDistance b.start start_time)) ∧
    (tier1Slots db doctor pd = [] →
     tier2Slots db (specialtyDoctorIds db doctor.speciality_id) (some pd) = [] →
      r.length = min 3
        (tier3Slots db (specialtyDoctorIds db doctor.speciality_id)
          (some pd)).length ∧
      (∀ c ∈ r, ∃ s ∈ tier3Slots db
          (specialtyDoctorIds db doctor.speciality_id) (some pd),
        c.slotId = s.slot_id ∧ c.start = s.start_time ∧
        c.endTime = s.end_time ∧ s.is_booked = false ∧
        ∃ a ∈ db.availabilities, a.available_date ≠ pd ∧
          s.availability_id = a.availability_id) ∧
      r.Pairwise (fun a b => dateLt a.date b.date = true ∨
        (a.date = b.date ∧ a.start ≤ b.start))) := by
  intro r hr
  have hre : recommend_alternatives db doctor_name date start_time end_time =
      (if (tier1Slots db doctor pd).isEmpty then
        recommendSpecialty db (specialtyDoctorIds db doctor.speciality_id)
          (some pd) start_time
      else
        (((tier1Slots db doctor pd).mergeSort (distLe start_time)).take 3).map
          (cand1 db doctor pd)) := by
    unfold recommend_alternatives
    rw [hdoc, hdate]
  by_cases h1 : (tier1Slots db doctor pd).isEmpty
  · -- tier 1 empty: the specialty fallback runs
    have h1' : tier1Slots db doctor pd = [] := List.isEmpty_iff.mp h1
    rw [hre, if_pos h1] at hr
    unfold recommendSpecialty at hr
    by_cases h2 : (tier2Slots db (specialtyDoctorIds db doctor.speciality_id)
        (some pd)).isEmpty
    · -- tier 2 empty as well: tier 3 result
      have h2' := List.isEmpty_iff.mp h2
      rw [if_pos h2] at hr
      subst hr
      refine ⟨?_, ?_, ?_, ?_⟩
      · rw [sortTakeMap_length]; omega
      · intro hne; exact absurd h1' hne
      · intro _ hne; exact absurd h2' hne
      · intro _ _
        refine ⟨sortTakeMap_length _ _ _ _, ?_, ?_⟩
        · intro c hc
          rcases sortTakeMap_mem hc with ⟨s, hs, rfl⟩
          rcases mem_tier3Slots hs with ⟨a, ha, _, hno, _, hsa, hb⟩
          exact ⟨s, hs, rfl, rfl, rfl, hb,
            a, ha, hno pd rfl, hsa⟩
        · refine sortTakeMap_pairwise (slotLexLe_trans db) (slotLexLe_total db)
            ?_ _ _
          intro a b h
          simp only [slotLexLe, Bool.or_eq_true, Bool.and_eq_true,
            decide_eq_true_eq] at h
          simpa [candOf] using h
    · -- tier 2 nonempty: its candidates are returned
      have h2' : tier2Slots db (specialtyDoctorIds db doctor.speciality_id)
          (some pd) ≠ [] := fun h => h2 (List.isEmpty_iff.mpr h)
      rw [if_neg h2] at hr
      subst hr
      refine ⟨?_, ?_, ?_, ?_⟩
      · rw [sortTakeMap_length]; omega
      · intro hne; exact absurd h1' hne
      · intro _ _
        refine ⟨sortTakeMap_length _ _ _ _, ?_, ?_⟩
        · intro c hc
          rcases sortTakeMap_mem hc with ⟨s, hs, rfl⟩
          rcases mem_tier2Slots hs with ⟨a, _, _, _, _, _, hb⟩
          exact ⟨s, hs, rfl, rfl, rfl, hb⟩
        · refine sortTakeMap_pairwise (distLe_trans start_time)
            (distLe_total start_time) ?_ _ _
          intro a b h
          simpa [distLe, candOf] using h
      · intro _ h2e; exact absurd h2e h2'
  · -- tier 1 nonempty: its candidates are returned
    have h1' : tier1Slots db doctor pd ≠ [] :=
      fun h => h1 (List.isEmpty_iff.mpr h)
    rw [hre, if_neg h1] at hr
    subst hr
    refine ⟨?_, ?_, ?_, ?_⟩
    · rw [sortTakeMap_length]; omega
    · intro _
      refine ⟨sortTakeMap_length _ _ _ _, ?_, ?_⟩
      · intro c hc
        rcases sortTakeMap_mem hc with ⟨s, hs, rfl⟩
        rcases mem_tier1Slots hs with ⟨a, _, _, _, hb⟩
        exact ⟨s, hs, rfl, rfl, rfl, hb⟩
      · refine sortTakeMap_pairwise (distLe_trans start_time)
          (distLe_total start_time) ?_ _ _
        intro a b h
        simpa [distLe, cand1] using h
    · intro h1e; exact absurd h1e h1'
    · intro h1e; exact absurd h1e h1'

/-- Witness for C1 on the spec's ranking fixture. -/
theorem recommend_three_tier_fallback_witness :
    dateFromISO "2024-03-01" = some ⟨2024, 3, 1⟩ ∧
    findDoctor fixtureDB "Dr A" = some fixtureDoctorA ∧
    (recommend_alternatives fixtureDB "Dr A" "2024-03-01" 36000 39600).length
      ≤ 3 :=
  ⟨by decide, by decide,
    (recommend_three_tier_fallback fixtureDB "Dr A" "2024-03-01" 36000 39600
      ⟨2024, 3, 1⟩ fixtureDoctorA (by decide) (by decide) _ rfl).1⟩

/-- The tier-2 pool is empty whenever the requested date failed to
parse: `same_date_avails` stays `[]`. -/
theorem tier2Slots_none (db : DB) (ids : List Nat) :
    tier2Slots db ids none = [] := by
  unfold tier2Slots
  by_cases h : ids.isEmpty <;> simp [h]

/-- C10: for a date argument that does not parse as `YYYY-MM-DD`,
`recommend_alternatives` for a known doctor does not fail and does not
return an error: tiers 1 and 2 are skipped entirely and the result is
up to 3 unbooked slots drawn from the doctor's specialty across all
availability dates with no date excluded (slots on the requested date
itself can appear among the candidates), ordered by (date, start time)
ascending. -/
theorem invalid_date_recommend_tier3_all_dates
    (db : DB) (doctor_name date : String) (start_time end_time : Nat)
    (doctor : Doctor)
    (hdate : dateFromISO date = none)
    (hdoc : findDoctor db doctor_name = some doctor) :
    ∀ r, r = recommend_alternatives db doctor_name date start_time end_time →
    r.length ≤ 3 ∧
    r.length = min 3
      (tier3Slots db (specialtyDoctorIds db doctor.speciality_id) none).length ∧
    (∀ c ∈ r, ∃ s ∈ tier3Slots db
        (specialtyDoctorIds db doctor.speciality_id) none,
      c.slotId = s.slot_id ∧ c.start = s.start_time ∧
      c.endTime = s.end_time ∧ s.is_booked = false) ∧
    (∀ s a, a ∈ db.availabilities →
      (specialtyDoctorIds db doctor.speciality_id).contains a.doctor_id = true →
      s ∈ db.slots → s.availability_id = a.availability_id →
      s.is_booked = false →
      s ∈ tier3Slots db (specialtyDoctorIds db doctor.speciality_id) none) ∧
    r.Pairwise (fun a b => dateLt a.date b.date = true ∨
      (a.date = b.date ∧ a.start ≤ b.start)) := by
  intro r hr
  have hre : recommend_alternatives db doctor_name date start_time end_time =
      recommendSpecialty db (specialtyDoctorIds db doctor.speciality_id) none
        start_time := by
    unfold recommend_alternatives
    rw [hdoc, hdate]
  rw [hre] at hr
  unfold recommendSpecialty at hr
  rw [tier2Slots_none] at hr
  simp only [List.isEmpty_nil, if_true] at hr
  subst hr
  refine ⟨?_, sortTakeMap_length _ _ _ _, ?_, ?_, ?_⟩
  · rw [sortTakeMap_length]; omega
  · intro c hc
    rcases sortTakeMap_mem hc with ⟨s, hs, rfl⟩
    rcases mem_tier3Slots hs with ⟨a, _, _, _, _, _, hb⟩
    exact ⟨s, hs, rfl, rfl, rfl, hb⟩
  · intro s a ha hid hmem hsa hb
    exact tier3Slots_none_complete ha hid hsa hmem hb
  · refine sortTakeMap_pairwise (slotLexLe_trans db) (slotLexLe_total db)
      ?_ _ _
    intro a b h
    simp only [slotLexLe, Bool.or_eq_true, Bool.and_eq_true,
      decide_eq_true_eq] at h
    simpa [candOf] using h

/-- Every entry of a store write is either the written pair or an old
entry. -/
theorem mem_storeSet {st : ChatStore} {u : String} {h : List ChatMessage}
    {e : String × List ChatMessage} (he : e ∈ storeSet st u h) :
    e = (u, h) ∨ e ∈ st := by
  unfold storeSet at he
  rcases hg : storeGet st u with _ | h0 <;> rw [hg] at he
  · rcases List.mem_append.mp he with h1 | h1
    · exact Or.inr h1
    · exact Or.inl (List.mem_singleton.mp h1)
  · rcases List.mem_map.mp he with ⟨e2, he2, rfl⟩
    by_cases hc : e2.1 = u
    · exact Or.inl (by simp [hc])
    · exact Or.inr (by simpa [hc] using he2)

/-- `find?` skips a prefix in which nothing matches. -/
theorem find?_none_append {α : Type} {p : α → Bool} {l1 : List α}
    (l2 : List α) (h : l1.find? p = none) :
    (l1 ++ l2).find? p = l2.find? p := by
  induction l1 with
  | nil => simp
  | cons e rest ih =>
    rcases hp : p e with _ | _
    · simp only [List.cons_append, List.find?_cons, hp] at h ⊢
      exact ih h
    · simp [List.find?_cons, hp] at h

/-- Replacing the entry for `u` in place commutes with looking `u` up. -/
theorem find?_map_replace (st : ChatStore) (u : String)
    (h : List ChatMessage) :
    (st.map (fun e => if e.1 = u then (u, h) else e)).find?
        (fun e => e.1 = u)
      = (st.find? (fun e => e.1 = u)).map (fun _ => (u, h)) := by
  induction st with
  | nil => simp
  | cons e rest ih =>
    by_cases hc : e.1 = u
    · simp [List.find?_cons, hc]
    · simp only [List.map_cons, if_neg hc, List.find?_cons,
        decide_eq_false hc, Bool.false_eq_true]
      exact ih

/-- Reading back a key just written returns the written history. -/
theorem storeGet_storeSet_self (st : ChatStore) (u : String)
    (h : List ChatMessage) : storeGet (storeSet st u h) u = some h := by
  unfold storeSet
  rcases hg : storeGet st u with _ | h0
  · show storeGet (st ++ [(u, h)]) u = some h
    unfold storeGet at hg ⊢
    have hfind : st.find? (fun e => e.1 = u) = none := by
      rcases hf : st.find? (fun e => e.1 = u) with _ | e
      · exact hf
      · rw [hf] at hg
        exact Option.noConfusion hg
    rw [find?_none_append _ hfind]
    simp [List.find?_cons]
  · show storeGet (st.map (fun e => if e.1 = u then (u, h) else e)) u
      = some h
    unfold storeGet at hg ⊢
    rw [find?_map_replace]
    rcases hf : st.find? (fun e => e.1 = u) with _ | e
    · rw [hf] at hg
      exact Option.noConfusion hg
    · rw [hf]
      simp

/-- A successful read exhibits a store entry. -/
theorem storeGet_mem {st : ChatStore} {u : String} {h : List ChatMessage}
    (hg : storeGet st u = some h) : (u, h) ∈ st := by
  unfold storeGet at hg
  rcases he : st.find? (fun e => e.1 = u) with _ | e
  · rw [he] at hg
    exact Option.noConfusion hg
  · rw [he] at hg
    have hmem := List.mem_of_find?_eq_some he
    have hp := List.find?_some he
    simp only [decide_eq_true_eq] at hp
    have h2 : e.2 = h := by simpa using hg
    have h3 : e = (u, h) := by
      obtain ⟨e1, e2⟩ := e
      simp only at hp h2
      rw [hp, h2]
    rw [← h3]
    exact hmem

/-- `ensure_user` always leaves an entry for the user. -/
theorem storeGet_ensure_user_some (st : ChatStore) (u : String) :
    ∃ h0, storeGet (ensure_user st u) u = some h0 := by
  unfold ensure_user
  rcases hg : storeGet st u with _ | h1
  · refine ⟨[systemMessage], ?_⟩
    show storeGet (storeSet st u [systemMessage]) u = some [systemMessage]
    exact storeGet_storeSet_self st u _
  · exact ⟨h1, hg⟩

/-- The store invariant the amended C5 establishes: every stored
history starts with a message whose role is `system`. -/
def StoreInv (st : ChatStore) : Prop :=
  ∀ e ∈ st, ∃ m, e.2.head? = some m ∧ m.role = "system"

theorem StoreInv_storeSet {st : ChatStore} {u : String}
    {h : List ChatMessage} (hinv : StoreInv st)
    (hh : ∃ m, h.head? = some m ∧ m.role = "system") :
    StoreInv (storeSet st u h) := by
  intro e he
  rcases mem_storeSet he with rfl | he2
  · exact hh
  · exact hinv e he2

theorem StoreInv_ensure_user {st : ChatStore} (hinv : StoreInv st)
    (u : String) : StoreInv (ensure_user st u) := by
  unfold ensure_user
  rcases hg : storeGet st u with _ | h0
  · show StoreInv (storeSet st u [systemMessage])
    exact StoreInv_storeSet hinv ⟨systemMessage, rfl, rfl⟩
  · show StoreInv st
    exact hinv

theorem StoreInv_applyOp {st : ChatStore} (hinv : StoreInv st)
    (op : StoreOp) : StoreInv (applyOp st op) := by
  cases op with
  | ensure u =>
    show StoreInv (ensure_user st u)
    exact StoreInv_ensure_user hinv u
  | append u m =>
    show StoreInv (add_message st u m)
    unfold add_message
    have hinv2 : StoreInv (ensure_user st u) := StoreInv_ensure_user hinv u
    refine StoreInv_storeSet hinv2 ?_
    rcases storeGet_ensure_user_some st u with ⟨h0, hg⟩
    rcases hinv2 _ (storeGet_mem hg) with ⟨m0, hm0, hrole⟩
    rcases h0 with _ | ⟨m1, rest⟩
    · exact Option.noConfusion hm0
    · rw [hg]
      simp only [List.head?_cons, Option.some.injEq] at hm0
      exact ⟨m1, by simp, hm0 ▸ hrole⟩
  | replaceAll u msgs =>
    show StoreInv (set_messages st u msgs)
    unfold set_messages
    by_cases hempty : msgs.isEmpty
    · rw [if_pos hempty]
      exact StoreInv_storeSet hinv ⟨systemMessage, rfl, rfl⟩
    · rw [if_neg hempty]
      by_cases hrole : (msgs.head?.map (fun m => m.role)) ≠ some "system"
      · rw [if_pos hrole]
        exact StoreInv_storeSet hinv ⟨systemMessage, rfl, rfl⟩
      · rw [if_neg hrole]
        push_neg at hrole
        rcases msgs with _ | ⟨m0, rest⟩
        · simp at hempty
        · refine StoreInv_storeSet hinv ⟨m0, rfl, ?_⟩
          simpa using hrole

theorem StoreInv_applyOps (ops : List StoreOp) {st : ChatStore}
    (hinv : StoreInv st) : StoreInv (applyOps ops st) := by
  induction ops generalizing st with
  | nil => exact hinv
  | cons op rest ih => exact ih (StoreInv_applyOp hinv op)

/-- C5 counterexample: `replace` with a list whose first element
already has role `"system"` but arbitrary content stores that list
verbatim, so the first stored message is not the fixed system
instruction. -/
theorem store_head_fixed_prompt_cex :
    storeGet (applyOps
        [StoreOp.replaceAll "u1" [{ role := "system", content := "override" }]]
        []) "u1"
      = some [{ role := "system", content := "override" }] ∧
    ({ role := "system", content := "override" } : ChatMessage)
      ≠ systemMessage :=
  ⟨rfl, by decide⟩

/-- C5 (amended): for every user id and every sequence of store
operations (ensure, append, replace), the first message of that user's
stored history always has role `system` (though not necessarily the
fixed instruction text: a replace whose first element already carries
role `system` is stored verbatim); replace with an empty message list
resets the history to the system-only state, and replace with a
non-empty list whose first element's role is not `system` stores the
list with the system instruction prepended. -/
theorem store_head_always_role_system :
    (∀ (ops : List StoreOp) (u : String) (h : List ChatMessage),
      storeGet (applyOps ops []) u = some h →
      ∃ m, h.head? = some m ∧ m.role = "system") ∧
    (∀ (st : ChatStore) (u : String),
      storeGet (set_messages st u []) u = some [systemMessage]) ∧
    (∀ (st : ChatStore) (u : String) (msgs : List ChatMessage)
      (m0 : ChatMessage), msgs.head? = some m0 → m0.role ≠ "system" →
      storeGet (set_messages st u msgs) u
        = some (systemMessage :: msgs)) := by
  refine ⟨?_, ?_, ?_⟩
  · intro ops u h hg
    have hinv : StoreInv (applyOps ops []) :=
      StoreInv_applyOps ops (fun e he => absurd he (List.not_mem_nil e))
    exact hinv _ (storeGet_mem hg)
  · intro st u
    show storeGet (storeSet st u [systemMessage]) u = some [systemMessage]
    exact storeGet_storeSet_self st u [systemMessage]
  · intro st u msgs m0 hm0 hrole
    unfold set_messages
    rcases msgs with _ | ⟨m1, rest⟩
    · exact Option.noConfusion hm0
    · simp only [List.head?_cons, Option.some.injEq] at hm0
      subst hm0
      rw [if_neg (show ¬((m1 :: rest).isEmpty = true) by simp),
        if_pos (show (Option.map (fun m => m.role) (m1 :: rest).head?)
          ≠ some "system" from by simpa using hrole)]
      exact storeGet_storeSet_self st u _

/-- Witness for C5's amended theorem: an append after a replace whose
head is a user message. -/
theorem store_head_role_system_witness :
    storeGet (applyOps
        [StoreOp.replaceAll "u1" [{ role := "user", content := "hi" }]]
        []) "u1"
      = some [systemMessage, { role := "user", content := "hi" }] ∧
    (∃ m, ([systemMessage,
        ({ role := "user", content := "hi" } : ChatMessage)]).head?
        = some m ∧ m.role = "system") ∧
    storeGet (set_messages [] "u2" []) "u2" = some [systemMessage] ∧
    storeGet (set_messages [] "u3" [{ role := "user", content := "yo" }]) "u3"
      = some [systemMessage, { role := "user", content := "yo" }] :=
  ⟨rfl,
    store_head_always_role_system.1
      [StoreOp.replaceAll "u1" [{ role := "user", content := "hi" }]]
      "u1" [systemMessage, { role := "user", content := "hi" }] rfl,
    store_head_always_role_system.2.1 [] "u2",
    store_head_always_role_system.2.2 [] "u3"
      [{ role := "user", content := "yo" }]
      { role := "user", content := "yo" } rfl (by decide)⟩

/-- The slot query behind booking only ever returns rows whose
`is_booked` flag is false (`TimeSlots.is_booked == False` in the
`where` clause). -/
theorem get_slot_id_unbooked {db : DB} {doctor_name date : String}
    {start_time end_time : Nat} {s : TimeSlots}
    (h : get_slot_id db doctor_name date start_time end_time = some s) :
    s.is_booked = false := by
  unfold get_slot_id at h
  rcases hd : findDoctor db doctor_name with _ | doctor
  · simp only [hd] at h
    exact Option.noConfusion h
  simp only [hd] at h
  rcases hpd : dateFromISO date with _ | pd
  · simp only [hpd] at h
    exact Option.noConfusion h
  simp only [hpd] at h
  rcases ha : availFor db doctor.doctor_id pd with _ | a
  · simp only [ha] at h
    exact Option.noConfusion h
  simp only [ha] at h
  have := List.find?_some h
  simp only [Bool.and_eq_true, decide_eq_true_eq,
    Bool.not_eq_true'] at this
  exact this.2

/-- An already-booked row is left untouched by the staged flag flip. -/
theorem setSlotBooked_mem_booked {slots : List TimeSlots} {sid : Nat}
    {t : TimeSlots} (ht : t ∈ slots) (hb : t.is_booked = true) :
    t ∈ setSlotBooked slots sid := by
  unfold setSlotBooked
  have hft : (fun s => if s.slot_id = sid then { s with is_booked := true }
      else s) t = t := by
    by_cases hc : t.slot_id = sid
    · simp only [hc, if_pos rfl]
      cases t
      simp_all
    · simp [hc]
  exact hft ▸ List.mem_map_of_mem _ ht

/-- C2 counterexample: on a slot miss (here: unknown doctor), the
returned payload carries `status:"error"` - not the distinct
`status:"not_found"` variant the claim requires. -/
theorem book_miss_status_error_cex :
    (run_book_tool emptyDB true "u1" "Dr X" "2024-03-01" "10:00-11:00"
        "Alice" "a@b" "123").2
      = BookToolPayload.unavailable "Slot not available or already booked" [] ∧
    payloadStatus (run_book_tool emptyDB true "u1" "Dr X" "2024-03-01"
        "10:00-11:00" "Alice" "a@b" "123").2 = "error" ∧
    ("error" : String) ≠ "not_found" :=
  ⟨by decide, by decide, by decide⟩

/-- C2 (amended): when book finds no exact matching open slot (unknown
doctor, no availability for that doctor and date, or no unbooked slot
with the requested start and end), it invokes the recommendation engine
with the requested window and returns a structured
"unavailable, here are alternatives" outcome; the outcome carries
`status:"error"` with message "Slot not available or already booked"
and the alternatives list (it is not a distinct not-found status, being
distinguishable from the generic error payload only by the alternatives
it carries), and no slot or patient record is created. -/
theorem book_miss_returns_error_with_alternatives
    (db : DB) (commitOk : Bool)
    (user_id doctor_name date time_range patient_name email phone : String)
    (st et : Nat)
    (hp : parseTimeRange time_range = some (st, et))
    (hm : get_slot_id db doctor_name date st et = none) :
    run_book_tool db commitOk user_id doctor_name date time_range patient_name
        email phone
      = (db, BookToolPayload.unavailable
          "Slot not available or already booked"
          (recommend_alternatives db doctor_name date st et)) ∧
    payloadStatus (run_book_tool db commitOk user_id doctor_name date
        time_range patient_name email phone).2 = "error" := by
  have hb : book_appointment db commitOk user_id doctor_name date time_range
      patient_name email phone
      = (db, BookOutcome.unavailable
          (recommend_alternatives db doctor_name date st et)) := by
    simp only [book_appointment, hp, hm]
  constructor
  · simp only [run_book_tool, hb]
  · simp only [run_book_tool, hb, payloadStatus]

/-- Witness for C2's amended theorem. -/
theorem book_miss_returns_error_witness :
    parseTimeRange "10:00-11:00" = some (36000, 39600) ∧
    get_slot_id emptyDB "Dr X" "2024-03-01" 36000 39600 = none ∧
    payloadStatus (run_book_tool emptyDB true "u1" "Dr X" "2024-03-01"
        "10:00-11:00" "Alice" "a@b" "123").2 = "error" :=
  ⟨by decide, by decide,
    (book_miss_returns_error_with_alternatives emptyDB true "u1" "Dr X"
      "2024-03-01" "10:00-11:00" "Alice" "a@b" "123" 36000 39600
      (by decide) (by decide)).2⟩

/-- C3: the booking state transition is all-or-nothing: either the
attempt fails and the persisted state is exactly the old one (so no
slot is left booked without its patient record and no patient record
exists without its slot being booked), or it succeeds and the flag flip
and the patient insertion are both applied by the one commit. -/
theorem book_appointment_all_or_nothing
    (db : DB) (commitOk : Bool)
    (user_id doctor_name date time_range patient_name email phone : String) :
    ((book_appointment db commitOk user_id doctor_name date time_range
        patient_name email phone).1 = db ∧
      ∀ info, (book_appointment db commitOk user_id doctor_name date
        time_range patient_name email phone).2 ≠ BookOutcome.success info)
    ∨ (∃ st et slot,
        parseTimeRange time_range = some (st, et) ∧
        get_slot_id db doctor_name date st et = some slot ∧
        slot.is_booked = false ∧
        (book_appointment db commitOk user_id doctor_name date time_range
          patient_name email phone).1.slots
          = setSlotBooked db.slots slot.slot_id ∧
        (book_appointment db commitOk user_id doctor_name date time_range
          patient_name email phone).1.patients
          = db.patients ++
            [mkPatient db user_id patient_name email phone slot.slot_id] ∧
        ∃ info, (book_appointment db commitOk user_id doctor_name date
          time_range patient_name email phone).2
            = BookOutcome.success info) := by
  rcases hp : parseTimeRange time_range with _ | ⟨st, et⟩
  · left
    constructor
    · simp only [book_appointment, hp]
    · intro info
      simp [book_appointment, hp]
  · rcases hs : get_slot_id db doctor_name date st et with _ | slot
    · left
      constructor
      · simp only [book_appointment, hp, hs]
      · intro info
        simp [book_appointment, hp, hs]
    · cases hc : commitOk
      · left
        constructor
        · simp only [book_appointment, hp, hs, hc]
          simp
        · intro info
          simp [book_appointment, hp, hs, hc]
      · right
        refine ⟨st, et, slot, rfl, hs, get_slot_id_unbooked hs, ?_, ?_, ?_⟩ <;>
          simp [book_appointment, hp, hs, hc]

/-- Witness for C3: instantiation at a state holding one open slot. -/
theorem book_appointment_all_or_nothing_witness :
    ((book_appointment oneSlotDB true "u1" "Dr A" "2024-03-01" "10:00-11:00"
        "Alice" "a@b" "123").1 = oneSlotDB ∧
      ∀ info, (book_appointment oneSlotDB true "u1" "Dr A" "2024-03-01"
        "10:00-11:00" "Alice" "a@b" "123").2 ≠ BookOutcome.success info)
    ∨ (∃ st et slot,
        parseTimeRange "10:00-11:00" = some (st, et) ∧
        get_slot_id oneSlotDB "Dr A" "2024-03-01" st et = some slot ∧
        slot.is_booked = false ∧
        (book_appointment oneSlotDB true "u1" "Dr A" "2024-03-01"
          "10:00-11:00" "Alice" "a@b" "123").1.slots
          = setSlotBooked oneSlotDB.slots slot.slot_id ∧
        (book_appointment oneSlotDB true "u1" "Dr A" "2024-03-01"
          "10:00-11:00" "Alice" "a@b" "123").1.patients
          = oneSlotDB.patients ++
            [mkPatient oneSlotDB "u1" "Alice" "a@b" "123" slot.slot_id] ∧
        ∃ info, (book_appointment oneSlotDB true "u1" "Dr A" "2024-03-01"
          "10:00-11:00" "Alice" "a@b" "123").2
            = BookOutcome.success info) :=
  book_appointment_all_or_nothing oneSlotDB true "u1" "Dr A" "2024-03-01"
    "10:00-11:00" "Alice" "a@b" "123"

/-- C4: every slot is bookable at most once: the lookup behind booking
only returns slots whose booked flag is false, so a booking never
succeeds on an already-booked slot; a successful booking flips the
found slot's flag from unbooked to booked, in the same commit as the
patient insertion; and a slot already booked in the old state is
carried over unchanged by the call. -/
theorem slot_booked_at_most_once
    (db : DB) (commitOk : Bool)
    (user_id doctor_name date time_range patient_name email phone : String) :
    (∀ st et s, get_slot_id db doctor_name date st et = some s →
      s.is_booked = false) ∧
    (∀ t, t ∈ db.slots → t.is_booked = true →
      t ∈ (book_appointment db commitOk user_id doctor_name date time_range
        patient_name email phone).1.slots) ∧
    (∀ info, (book_appointment db commitOk user_id doctor_name date
        time_range patient_name email phone).2 = BookOutcome.success info →
      ∃ st et slot, parseTimeRange time_range = some (st, et) ∧
        get_slot_id db doctor_name date st et = some slot ∧
        slot.is_booked = false ∧
        (book_appointment db commitOk user_id doctor_name date time_range
          patient_name email phone).1.slots
          = setSlotBooked db.slots slot.slot_id ∧
        (book_appointment db commitOk user_id doctor_name date time_range
          patient_name email phone).1.patients
          = db.patients ++
            [mkPatient db user_id patient_name email phone slot.slot_id]) := by
  refine ⟨fun _ _ _ h => get_slot_id_unbooked h, ?_, ?_⟩
  · intro t ht hb
    rcases book_appointment_all_or_nothing db commitOk user_id doctor_name
        date time_range patient_name email phone with
      ⟨hsame, _⟩ | ⟨st, et, slot, _, _, _, hslots, _, _⟩
    · rw [hsame]; exact ht
    · rw [hslots]; exact setSlotBooked_mem_booked ht hb
  · intro info hinfo
    rcases book_appointment_all_or_nothing db commitOk user_id doctor_name
        date time_range patient_name email phone with
      ⟨_, hno⟩ | ⟨st, et, slot, hp, hs, hub, hslots, hpat, _⟩
    · exact absurd hinfo (hno info)
    · exact ⟨st, et, slot, hp, hs, hub, hslots, hpat⟩

/-- Witness for C4: instantiation at the one-open-slot state. -/
theorem slot_booked_at_most_once_witness :
    (∀ st et s, get_slot_id oneSlotDB "Dr A" "2024-03-01" st et = some s →
      s.is_booked = false) ∧
    (∀ t, t ∈ oneSlotDB.slots → t.is_booked = true →
      t ∈ (book_appointment oneSlotDB true "u1" "Dr A" "2024-03-01"
        "10:00-11:00" "Alice" "a@b" "123").1.slots) ∧
    (∀ info, (book_appointment oneSlotDB true "u1" "Dr A" "2024-03-01"
        "10:00-11:00" "Alice" "a@b" "123").2 = BookOutcome.success info →
      ∃ st et slot, parseTimeRange "10:00-11:00" = some (st, et) ∧
        get_slot_id oneSlotDB "Dr A" "2024-03-01" st et = some slot ∧
        slot.is_booked = false ∧
        (book_appointment oneSlotDB true "u1" "Dr A" "2024-03-01"
          "10:00-11:00" "Alice" "a@b" "123").1.slots
          = setSlotBooked oneSlotDB.slots slot.slot_id ∧
        (book_appointment oneSlotDB true "u1" "Dr A" "2024-03-01"
          "10:00-11:00" "Alice" "a@b" "123").1.patients
          = oneSlotDB.patients ++
            [mkPatient oneSlotDB "u1" "Alice" "a@b" "123" slot.slot_id]) :=
  slot_booked_at_most_once oneSlotDB true "u1" "Dr A" "2024-03-01"
    "10:00-11:00" "Alice" "a@b" "123"

/-- Witness for C10: a malformed date against the ranking fixture. -/
theorem invalid_date_recommend_witness :
    dateFromISO "not-a-date" = none ∧
    findDoctor fixtureDB "Dr A" = some fixtureDoctorA ∧
    (recommend_alternatives fixtureDB "Dr A" "not-a-date" 36000 39600).length
      ≤ 3 :=
  ⟨by decide, by decide,
    (invalid_date_recommend_tier3_all_dates fixtureDB "Dr A" "not-a-date"
      36000 39600 fixtureDoctorA (by decide) (by decide) _ rfl).1⟩


/-- C6 counterexample: a booking with patient name present but empty
email and phone is not stopped before the resolver: it resolves the
slot, flips its flag and inserts a patient record carrying the empty
strings - no structured missing-fields error is produced and the slot
is mutated. -/
theorem booking_missing_fields_proceeds_cex :
    (book_appointment oneSlotDB true "u1" "Dr A" "2024-03-01" "10:00-11:00"
        "Alice" "" "").1.slots = [⟨1, 1, 36000, 39600, true⟩] ∧
    (book_appointment oneSlotDB true "u1" "Dr A" "2024-03-01" "10:00-11:00"
        "Alice" "" "").1.patients
      = [{ booking_id := 1, user_id := "u1", slot_id := 1, name := "Alice"
          , email := "", phone := "" }] ∧
    (book_appointment oneSlotDB true "u1" "Dr A" "2024-03-01" "10:00-11:00"
        "Alice" "" "").2
      = BookOutcome.success
          { doctorId := 1, doctorName := "Dr A", speciality := "Cardio"
          , date := "2024-03-01", slotId := 1, startT := 36000, endT := 39600
          , patientName := "Alice", email := "", phone := "" } :=
  ⟨by decide, by decide, by decide⟩

/-- C6 (amended): the executable core performs no required-field
validation: `book_appointment` accepts empty patient email and phone,
proceeds to the resolver exactly as with any other values, and on a
slot hit flips the slot and stores the empty strings in the patient
record; the required-field policy exists only as instruction text in
the system prompt addressed to the model, so no structured
missing-fields error is produced anywhere in the core and the slot is
mutated. -/
theorem book_no_required_field_gate
    (db : DB) (user_id doctor_name date time_range patient_name : String)
    (st et : Nat) (slot : TimeSlots)
    (hp : parseTimeRange time_range = some (st, et))
    (hs : get_slot_id db doctor_name date st et = some slot) :
    (book_appointment db true user_id doctor_name date time_range
        patient_name "" "").1.slots = setSlotBooked db.slots slot.slot_id ∧
    (book_appointment db true user_id doctor_name date time_range
        patient_name "" "").1.patients
      = db.patients ++
          [mkPatient db user_id patient_name "" "" slot.slot_id] ∧
    (∃ info, (book_appointment db true user_id doctor_name date time_range
        patient_name "" "").2 = BookOutcome.success info ∧
      info.email = "" ∧ info.phone = "") := by
  refine ⟨?_, ?_, ?_⟩
  · simp [book_appointment, hp, hs]
  · simp [book_appointment, hp, hs]
  · have h2 : (book_appointment db true user_id doctor_name date time_range
        patient_name "" "").2
        = BookOutcome.success
          { doctorId := ((slotDoctor db slot).map (fun d => d.doctor_id)).getD 0
          , doctorName := slotDoctorName db slot
          , speciality := slotSpecialityName db slot
          , date := date, slotId := slot.slot_id
          , startT := slot.start_time, endT := slot.end_time
          , patientName := patient_name, email := "", phone := "" } := by
      simp [book_appointment, hp, hs]
    exact ⟨_, h2, rfl, rfl⟩

/-- Witness for C6's amended theorem. -/
theorem book_no_required_field_gate_witness :
    parseTimeRange "10:00-11:00" = some (36000, 39600) ∧
    get_slot_id oneSlotDB "Dr A" "2024-03-01" 36000 39600
      = some ⟨1, 1, 36000, 39600, false⟩ ∧
    (book_appointment oneSlotDB true "u1" "Dr A" "2024-03-01" "10:00-11:00"
        "Alice" "" "").1.slots
      = setSlotBooked oneSlotDB.slots 1 :=
  ⟨by decide, by decide,
    (book_no_required_field_gate oneSlotDB "u1" "Dr A" "2024-03-01"
      "10:00-11:00" "Alice" 36000 39600 ⟨1, 1, 36000, 39600, false⟩
      (by decide) (by decide)).1⟩

/-- C7: the rate-limit policy the claim describes is implemented in
`_maybe_wait_and_retry` (server `Retry-After` hint when it parses,
otherwise exponential backoff `base_delay * 2 ** attempt`, hard
`HTTPError` once attempts are exhausted) - but `_call_openai` never
invokes it: `raise_for_status()` on a 429 lands in the generic
`except` branch, which returns the uniform error payload at once, so a
single 429 is surfaced directly as a terminal error and the scripted
follow-up reply is never consumed. -/
theorem rate_limit_surfaced_without_retry :
    call_openai [ModelReply.rateLimited none, ModelReply.text "hello"]
      = CallResult.errorPayload
        "Unable to contact the assistant at the moment. Please try again later." ∧
    call_openai [ModelReply.text "hello"] = CallResult.finalText "hello" ∧
    maybe_wait_and_retry 429 none 0 5 2 = RetryDecision.retryAfterDelay 2 ∧
    maybe_wait_and_retry 429 none 1 5 2 = RetryDecision.retryAfterDelay 4 ∧
    maybe_wait_and_retry 429 (some "7") 1 5 2
      = RetryDecision.retryAfterDelay 7 ∧
    maybe_wait_and_retry 429 none 5 5 2 = RetryDecision.raisedHTTPError ∧
    maybe_wait_and_retry 200 none 0 5 2 = RetryDecision.noRetry :=
  ⟨rfl, rfl, by decide, by decide, by decide, by decide, by decide⟩

/-- C8: a `timeRange` that does not split on a dash into exactly two
valid ISO time literals makes the parse raise before any query or
mutation; the dispatch boundary `_run_async_db_call` converts the
exception into the uniform `status:"error"` payload and the persisted
state is unchanged. -/
theorem malformed_time_range_uniform_error
    (db : DB) (commitOk : Bool)
    (user_id doctor_name date time_range patient_name email phone : String)
    (hbad : parseTimeRange time_range = none) :
    run_book_tool db commitOk user_id doctor_name date time_range
        patient_name email phone
      = (db, BookToolPayload.genericError
          "Something went wrong while processing your request. Please try again later.") ∧
    payloadStatus (run_book_tool db commitOk user_id doctor_name date
        time_range patient_name email phone).2 = "error" := by
  have hb : book_appointment db commitOk user_id doctor_name date time_range
      patient_name email phone = (db, BookOutcome.raised) := by
    simp only [book_appointment, hbad]
  constructor
  · simp only [run_book_tool, hb]
  · simp only [run_book_tool, hb, payloadStatus]

/-- Witness for C8: a three-part time range. -/
theorem malformed_time_range_witness :
    parseTimeRange "10:00-11:00-12:00" = none ∧
    run_book_tool oneSlotDB true "u1" "Dr A" "2024-03-01" "10:00-11:00-12:00"
        "Alice" "a@b" "123"
      = (oneSlotDB, BookToolPayload.genericError
          "Something went wrong while processing your request. Please try again later.") :=
  ⟨by decide,
    (malformed_time_range_uniform_error oneSlotDB true "u1" "Dr A"
      "2024-03-01" "10:00-11:00-12:00" "Alice" "a@b" "123" (by decide)).1⟩

/-- A failed `d.get(k)` means the underlying `find?` failed. -/
theorem find?_of_lookupArg_none {α : Type} {a : List (String × α)}
    {k : String} (h : lookupArg a k = none) :
    a.find? (fun kv => kv.1 = k) = none := by
  unfold lookupArg at h
  rcases hf : a.find? (fun kv => kv.1 = k) with _ | e
  · exact hf
  · rw [hf] at h
    exact Option.noConfusion h

theorem find?_cons_key_eq {α : Type} (k : String) (v : α)
    (a : List (String × α)) :
    ((k, v) :: a).find? (fun kv => kv.1 = k) = some (k, v) := by
  simp [List.find?_cons]

theorem find?_cons_key_ne {α : Type} {k0 k : String} (v : α)
    (a : List (String × α)) (h : ¬(k0 = k)) :
    ((k0, v) :: a).find? (fun kv => kv.1 = k)
      = a.find? (fun kv => kv.1 = k) := by
  simp [List.find?_cons, h]

/-- C9: dispatch argument aliasing: supplying the doctor-filter value
under key `"speciality"` produces the same extracted argument -
hence an identical dispatched call - as supplying it under
`"specialty"`; likewise `book_appointment` receives an identical
argument tuple whether the time range arrives under `"time"` or
`"time_range"`. -/
theorem dispatch_argument_aliasing
    (base : List (String × String)) (v : String)
    (hs1 : lookupArg base "specialty" = none)
    (hs2 : lookupArg base "speciality" = none)
    (ht1 : lookupArg base "time" = none)
    (ht2 : lookupArg base "time_range" = none) :
    filterSpecialityArg (("speciality", v) :: base)
      = filterSpecialityArg (("specialty", v) :: base) ∧
    filterSpecialityArg (("speciality", v) :: base) = some v ∧
    bookCallArgs (("time", v) :: base)
      = bookCallArgs (("time_range", v) :: base) ∧
    (bookCallArgs (("time", v) :: base)).time_range = some v := by
  have hb1 := find?_of_lookupArg_none hs1
  have hb2 := find?_of_lookupArg_none hs2
  have hb3 := find?_of_lookupArg_none ht1
  have hb4 := find?_of_lookupArg_none ht2
  have haux1 : filterSpecialityArg (("speciality", v) :: base) = some v := by
    unfold filterSpecialityArg
    simp only [get_arg, find?_cons_key_ne v base (by decide : ¬("speciality" = "specialty")),
      hb1, find?_cons_key_eq]
  have haux2 : filterSpecialityArg (("specialty", v) :: base) = some v := by
    unfold filterSpecialityArg
    simp only [get_arg, find?_cons_key_eq]
  refine ⟨haux1.trans haux2.symm, haux1, ?_, ?_⟩
  · unfold bookCallArgs
    unfold lookupArg
    simp only [get_arg, find?_cons_key_eq,
      find?_cons_key_ne v base (by decide : ¬("time" = "user_id")),
      find?_cons_key_ne v base (by decide : ¬("time_range" = "user_id")),
      find?_cons_key_ne v base (by decide : ¬("time" = "doctor_name")),
      find?_cons_key_ne v base (by decide : ¬("time_range" = "doctor_name")),
      find?_cons_key_ne v base (by decide : ¬("time" = "date")),
      find?_cons_key_ne v base (by decide : ¬("time_range" = "date")),
      find?_cons_key_ne v base (by decide : ¬("time_range" = "time")),
      find?_cons_key_ne v base (by decide : ¬("time" = "time_range")),
      find?_cons_key_ne v base (by decide : ¬("time" = "patient_name")),
      find?_cons_key_ne v base (by decide : ¬("time_range" = "patient_name")),
      find?_cons_key_ne v base (by decide : ¬("time" = "email")),
      find?_cons_key_ne v base (by decide : ¬("time_range" = "email")),
      find?_cons_key_ne v base (by decide : ¬("time" = "phone")),
      find?_cons_key_ne v base (by decide : ¬("time_range" = "phone")),
      hb3, hb4]
  · unfold bookCallArgs
    unfold lookupArg
    simp only [get_arg, find?_cons_key_eq]

/-- Witness for C9. -/
theorem dispatch_argument_aliasing_witness :
    lookupArg [("doctor_name", "Dr A")] "specialty" = none ∧
    lookupArg [("doctor_name", "Dr A")] "speciality" = none ∧
    lookupArg [("doctor_name", "Dr A")] "time" = none ∧
    lookupArg [("doctor_name", "Dr A")] "time_range" = none ∧
    filterSpecialityArg (("speciality", "Cardio") :: [("doctor_name", "Dr A")])
      = filterSpecialityArg (("specialty", "Cardio") ::
          [("doctor_name", "Dr A")]) :=
  ⟨by decide, by decide, by decide, by decide,
    (dispatch_argument_aliasing [("doctor_name", "Dr A")] "Cardio"
      (by decide) (by decide) (by decide) (by decide)).1⟩

end DoctorBot
